import Mathlib

/-!
Verification of the city-planner repository's constraint model, score
breakdown, solver configuration and JSON loading layer, shallowly embedded
from the Python sources (domain.py, constraints.py, app.py, solve.py,
benchmark.py).

Python floats that the code only stores, compares and adds are embedded as
rationals (every IEEE float is an exact rational); the one genuinely real
valued quantity, the Euclidean distance `math.dist`, is embedded into ℝ via
`Real.sqrt`.
-/

/-- Transcribed from domain.py: `class BuildingType(Enum)`. -/
inductive BuildingType where
  | HOUSE
  | SCHOOL
  | PHARMACY
  | HOSPITAL
  | SHOP
  | OFFICE
deriving DecidableEq, Repr, Fintype

/-- Transcribed from domain.py: `class ZoneType(Enum)`. -/
inductive ZoneType where
  | RESIDENTIAL
  | COMMERCIAL
  | MIXED
  | INDUSTRIAL
  | RESTRICTED
deriving DecidableEq, Repr, Fintype

/-- Transcribed from domain.py: `@dataclass class Location`.  The dataclass
compares by structural equality of all fields, which the derived
`DecidableEq` mirrors.  `x`, `y` and `cost_factor` are Python floats,
embedded as rationals. -/
structure Location where
  id : Int
  name : String
  x : ℚ
  y : ℚ
  zone : ZoneType
  cost_factor : ℚ
  allowed_building_types : List BuildingType
deriving DecidableEq, Repr

/-- Transcribed from domain.py: `@planning_entity @dataclass class
BuildingPlacement`; `location` is the planning variable, `None` when the
placement is unassigned. -/
structure BuildingPlacement where
  id : Int
  building_type : BuildingType
  location : Option Location := none
deriving DecidableEq, Repr

/-- Transcribed from timefold's `HardSoftScore` as the repository uses it: a
hard/soft pair set on the solution by the solver (None before solving). -/
structure HardSoftScore where
  hard : Int
  soft : ℚ
deriving DecidableEq, Repr

/-- Transcribed from domain.py: `@planning_solution @dataclass class
CityPlanSolution`; `score` defaults to `None`. -/
structure CityPlanSolution where
  id : String
  location_list : List Location
  building_placement_list : List BuildingPlacement
  score : Option HardSoftScore := none
deriving DecidableEq

/-- Transcribed from constraints.py `is_building_type_allowed_in_zone`:
RESTRICTED first returns False, then one membership test per building type,
and a final `return False`. -/
def is_building_type_allowed_in_zone (building_type : BuildingType) (zone : ZoneType) : Bool :=
  if zone = ZoneType.RESTRICTED then
    false
  else if building_type = BuildingType.HOUSE ∧
      zone ∈ [ZoneType.RESIDENTIAL, ZoneType.MIXED, ZoneType.COMMERCIAL] then
    true
  else if building_type = BuildingType.OFFICE ∧
      zone ∈ [ZoneType.COMMERCIAL, ZoneType.MIXED] then
    true
  else if building_type = BuildingType.SHOP ∧
      zone ∈ [ZoneType.COMMERCIAL, ZoneType.MIXED] then
    true
  else if building_type = BuildingType.SCHOOL ∧
      zone ∈ [ZoneType.RESIDENTIAL, ZoneType.MIXED] then
    true
  else if building_type = BuildingType.HOSPITAL ∧
      zone ∈ [ZoneType.RESIDENTIAL, ZoneType.MIXED] then
    true
  else if building_type = BuildingType.PHARMACY ∧
      zone ∈ [ZoneType.RESIDENTIAL, ZoneType.MIXED, ZoneType.COMMERCIAL] then
    true
  else
    false

/-- C1: `is_building_type_allowed_in_zone` returns true exactly on the
spec's zone-compatibility table (HOUSE in RESIDENTIAL/MIXED/COMMERCIAL,
OFFICE in COMMERCIAL/MIXED, SHOP in COMMERCIAL/MIXED, SCHOOL in
RESIDENTIAL/MIXED, HOSPITAL in RESIDENTIAL/MIXED, PHARMACY in
RESIDENTIAL/MIXED/COMMERCIAL), and in particular is false for every
building type in the RESTRICTED and INDUSTRIAL zones. -/
theorem is_building_type_allowed_in_zone_matches_table :
    (∀ b z, is_building_type_allowed_in_zone b z = true ↔
      ((b = BuildingType.HOUSE ∧
          (z = ZoneType.RESIDENTIAL ∨ z = ZoneType.MIXED ∨ z = ZoneType.COMMERCIAL)) ∨
       (b = BuildingType.OFFICE ∧ (z = ZoneType.COMMERCIAL ∨ z = ZoneType.MIXED)) ∨
       (b = BuildingType.SHOP ∧ (z = ZoneType.COMMERCIAL ∨ z = ZoneType.MIXED)) ∨
       (b = BuildingType.SCHOOL ∧ (z = ZoneType.RESIDENTIAL ∨ z = ZoneType.MIXED)) ∨
       (b = BuildingType.HOSPITAL ∧ (z = ZoneType.RESIDENTIAL ∨ z = ZoneType.MIXED)) ∨
       (b = BuildingType.PHARMACY ∧
          (z = ZoneType.RESIDENTIAL ∨ z = ZoneType.MIXED ∨ z = ZoneType.COMMERCIAL)))) ∧
    (∀ b, is_building_type_allowed_in_zone b ZoneType.RESTRICTED = false) ∧
    (∀ b, is_building_type_allowed_in_zone b ZoneType.INDUSTRIAL = false) := by
  refine ⟨?_, ?_, ?_⟩ <;> decide

/-- All unordered pairs of a list, in the nested-loop order `i < j` in which
both app.py's index loops and `for_each_unique_pair` over the entity
collection enumerate them. -/
def uniquePairs {α : Type} : List α → List (α × α)
  | [] => []
  | x :: xs => (xs.map fun y => (x, y)) ++ uniquePairs xs

/-- Transcribed from constraints.py `calc_distance`: `math.dist` on the two
placements' location coordinates, i.e. the Euclidean distance.  Every call
site first filters both locations non-None; on the unreachable None case
the Python attribute access would raise, and the embedding returns 0. -/
noncomputable def calc_distance (bp1 bp2 : BuildingPlacement) : ℝ :=
  match bp1.location, bp2.location with
  | some l1, some l2 =>
      Real.sqrt (((l1.x - l2.x : ℚ) : ℝ) ^ 2 + ((l1.y - l2.y : ℚ) : ℝ) ^ 2)
  | _, _ => 0

/-- Transcribed from the filter of constraints.py
`build_disallowed_location_constraint`: `bp.location is not None and
bp.building_type not in bp.location.allowed_building_types`. -/
def disallowed_location_filter (bp : BuildingPlacement) : Bool :=
  match bp.location with
  | some loc => decide (bp.building_type ∉ loc.allowed_building_types)
  | none => false

/-- Match count of `build_disallowed_location_constraint`, which penalizes
ONE_HARD per matching placement. -/
def disallowed_location_violations (placements : List BuildingPlacement) : Nat :=
  placements.countP disallowed_location_filter

/-- Transcribed from the filter of constraints.py
`build_zoning_mismatch_constraint`: `bp.location is not None and not
is_building_type_allowed_in_zone(bp.building_type, bp.location.zone)`. -/
def zoning_mismatch_filter (bp : BuildingPlacement) : Bool :=
  match bp.location with
  | some loc => !(is_building_type_allowed_in_zone bp.building_type loc.zone)
  | none => false

/-- Match count of `build_zoning_mismatch_constraint`, which penalizes
ONE_HARD per matching placement. -/
def zoning_mismatch_violations (placements : List BuildingPlacement) : Nat :=
  placements.countP zoning_mismatch_filter

/-- Transcribed from the filter of constraints.py
`build_location_uniqueness_constraint`: `bp1.location is not None and
bp1.location == bp2.location` (Python `==` on the optional values; a
Location value never equals None). -/
def location_uniqueness_filter (bp1 bp2 : BuildingPlacement) : Bool :=
  decide (bp1.location ≠ none) && decide (bp1.location = bp2.location)

/-- Match count of `build_location_uniqueness_constraint` over unordered
pairs, which penalizes ONE_HARD per matching pair. -/
def location_uniqueness_violations (placements : List BuildingPlacement) : Nat :=
  (uniquePairs placements).countP fun pr => location_uniqueness_filter pr.1 pr.2

/-- Transcribed from the filter of constraints.py
`build_house_school_distance_constraint`: the HOUSE/SCHOOL type test in
either order, and both locations non-None. -/
def house_school_filter (bp1 bp2 : BuildingPlacement) : Bool :=
  decide ((bp1.building_type = BuildingType.HOUSE ∧ bp2.building_type = BuildingType.SCHOOL) ∨
      (bp1.building_type = BuildingType.SCHOOL ∧ bp2.building_type = BuildingType.HOUSE)) &&
    decide (bp1.location ≠ none) && decide (bp2.location ≠ none)

/-- Weight total of `build_house_school_distance_constraint`, which
penalizes ONE_SOFT with weight `calc_distance(bp1, bp2)` per matching
pair. -/
noncomputable def house_school_distance_sum (placements : List BuildingPlacement) : ℝ :=
  (((uniquePairs placements).filter fun pr => house_school_filter pr.1 pr.2).map
    fun pr => calc_distance pr.1 pr.2).sum

/-- Transcribed from the filter of constraints.py
`build_house_office_distance_constraint`: the HOUSE/OFFICE type test in
either order, and both locations non-None. -/
def house_office_filter (bp1 bp2 : BuildingPlacement) : Bool :=
  decide ((bp1.building_type = BuildingType.HOUSE ∧ bp2.building_type = BuildingType.OFFICE) ∨
      (bp1.building_type = BuildingType.OFFICE ∧ bp2.building_type = BuildingType.HOUSE)) &&
    decide (bp1.location ≠ none) && decide (bp2.location ≠ none)

/-- Weight total of `build_house_office_distance_constraint`, which
penalizes ONE_SOFT with weight `calc_distance(bp1, bp2)` per matching
pair. -/
noncomputable def house_office_distance_sum (placements : List BuildingPlacement) : ℝ :=
  (((uniquePairs placements).filter fun pr => house_office_filter pr.1 pr.2).map
    fun pr => calc_distance pr.1 pr.2).sum

/-- Transcribed from the filter of constraints.py `build_cost_constraint`:
`bp.location is not None`. -/
def cost_filter (bp : BuildingPlacement) : Bool :=
  decide (bp.location ≠ none)

/-- Weight of `build_cost_constraint`: `bp.location.cost_factor` (the
filter guarantees the location is set; the None branch would raise in
Python and is unreachable at the call site). -/
def cost_weight (bp : BuildingPlacement) : ℝ :=
  match bp.location with
  | some loc => (loc.cost_factor : ℝ)
  | none => 0

/-- Weight total of `build_cost_constraint`, which penalizes ONE_SOFT with
weight `bp.location.cost_factor` per assigned placement. -/
noncomputable def building_cost_sum (placements : List BuildingPlacement) : ℝ :=
  ((placements.filter cost_filter).map cost_weight).sum

/-- One entry of the constraint-breakdown dictionary list app.py builds. -/
structure BreakdownEntry where
  constraintName : String
  hardPenalty : Int
  softPenalty : ℝ

/-- Transcribed from app.py `get_score_breakdown`: the API layer's manually
re-derived six-entry constraint breakdown.  A truthiness test
`if bp.location` holds exactly when the location is not None (a Location
dataclass instance is always truthy), and the `i < j` index loops are the
`uniquePairs` enumeration. -/
noncomputable def get_score_breakdown (solution : CityPlanSolution) : List BreakdownEntry :=
  let placements := solution.building_placement_list
  let disallowed_count : Nat := placements.countP fun bp =>
    match bp.location with
    | some loc => decide (bp.building_type ∉ loc.allowed_building_types)
    | none => false
  let zoning_count : Nat := placements.countP fun bp =>
    match bp.location with
    | some loc => !(is_building_type_allowed_in_zone bp.building_type loc.zone)
    | none => false
  let uniq_count : Nat := (uniquePairs placements).countP fun pr =>
    match pr.1.location, pr.2.location with
    | some l1, some l2 => decide (l1 = l2)
    | _, _ => false
  let hs_sum : ℝ := ((uniquePairs placements).map fun pr =>
    match pr.1.location, pr.2.location with
    | some _, some _ =>
        if (pr.1.building_type = BuildingType.HOUSE ∧ pr.2.building_type = BuildingType.SCHOOL) ∨
            (pr.1.building_type = BuildingType.SCHOOL ∧ pr.2.building_type = BuildingType.HOUSE) then
          calc_distance pr.1 pr.2
        else 0
    | _, _ => 0).sum
  let ho_sum : ℝ := ((uniquePairs placements).map fun pr =>
    match pr.1.location, pr.2.location with
    | some _, some _ =>
        if (pr.1.building_type = BuildingType.HOUSE ∧ pr.2.building_type = BuildingType.OFFICE) ∨
            (pr.1.building_type = BuildingType.OFFICE ∧ pr.2.building_type = BuildingType.HOUSE) then
          calc_distance pr.1 pr.2
        else 0
    | _, _ => 0).sum
  let cost_sum : ℝ := (placements.map fun bp =>
    match bp.location with
    | some loc => (loc.cost_factor : ℝ)
    | none => 0).sum
  [ { constraintName := "Building in disallowed location (HARD)",
      hardPenalty := -(disallowed_count : Int), softPenalty := 0 },
    { constraintName := "Zoning mismatch (HARD)",
      hardPenalty := -(zoning_count : Int), softPenalty := 0 },
    { constraintName := "Location uniqueness (HARD)",
      hardPenalty := -(uniq_count : Int), softPenalty := 0 },
    { constraintName := "Distance between HOUSE and SCHOOL (SOFT)",
      hardPenalty := 0, softPenalty := -hs_sum },
    { constraintName := "Distance between HOUSE and OFFICE (SOFT)",
      hardPenalty := 0, softPenalty := -ho_sum },
    { constraintName := "Building cost minimization (SOFT)",
      hardPenalty := 0, softPenalty := -cost_sum } ]

/-- Summing a function over the matches of a filter is summing the
if-guarded function over the whole list (the shape difference between the
constraint streams and app.py's accumulator loops). -/
theorem sum_map_filter_eq_sum_ite {α M : Type} [AddCommMonoid M]
    (p : α → Bool) (g : α → M) (l : List α) :
    ((l.filter p).map g).sum = (l.map fun a => if p a then g a else 0).sum := by
  induction l with
  | nil => simp
  | cons x xs ih =>
    by_cases hx : p x = true
    · simp [List.filter_cons, hx, ih]
    · simp [List.filter_cons, hx, ih]

/-- The uniqueness filter of constraints.py agrees pointwise with the
uniqueness test of app.py's loop. -/
theorem location_uniqueness_filter_eq (pr : BuildingPlacement × BuildingPlacement) :
    location_uniqueness_filter pr.1 pr.2 =
      match pr.1.location, pr.2.location with
      | some l1, some l2 => decide (l1 = l2)
      | _, _ => false := by
  rcases pr with ⟨bp1, bp2⟩
  rcases h1 : bp1.location with _ | l1 <;> rcases h2 : bp2.location with _ | l2 <;>
    simp [location_uniqueness_filter, h1, h2]

/-- The HOUSE/SCHOOL contribution of a pair is the same whether the filter
is applied stream-style (constraints.py) or loop-style (app.py). -/
theorem house_school_term_eq (pr : BuildingPlacement × BuildingPlacement) :
    (if house_school_filter pr.1 pr.2 then calc_distance pr.1 pr.2 else 0 : ℝ) =
      (match pr.1.location, pr.2.location with
      | some _, some _ =>
          if (pr.1.building_type = BuildingType.HOUSE ∧ pr.2.building_type = BuildingType.SCHOOL) ∨
              (pr.1.building_type = BuildingType.SCHOOL ∧ pr.2.building_type = BuildingType.HOUSE) then
            calc_distance pr.1 pr.2
          else 0
      | _, _ => 0) := by
  rcases pr with ⟨bp1, bp2⟩
  rcases h1 : bp1.location with _ | l1 <;> rcases h2 : bp2.location with _ | l2 <;>
    simp [house_school_filter, h1, h2]

/-- The HOUSE/OFFICE contribution of a pair is the same whether the filter
is applied stream-style (constraints.py) or loop-style (app.py). -/
theorem house_office_term_eq (pr : BuildingPlacement × BuildingPlacement) :
    (if house_office_filter pr.1 pr.2 then calc_distance pr.1 pr.2 else 0 : ℝ) =
      (match pr.1.location, pr.2.location with
      | some _, some _ =>
          if (pr.1.building_type = BuildingType.HOUSE ∧ pr.2.building_type = BuildingType.OFFICE) ∨
              (pr.1.building_type = BuildingType.OFFICE ∧ pr.2.building_type = BuildingType.HOUSE) then
            calc_distance pr.1 pr.2
          else 0
      | _, _ => 0) := by
  rcases pr with ⟨bp1, bp2⟩
  rcases h1 : bp1.location with _ | l1 <;> rcases h2 : bp2.location with _ | l2 <;>
    simp [house_office_filter, h1, h2]

/-- The constraint count of `build_location_uniqueness_constraint` in the
form app.py's loop computes it. -/
theorem location_uniqueness_violations_eq (l : List BuildingPlacement) :
    location_uniqueness_violations l =
      (uniquePairs l).countP fun pr =>
        match pr.1.location, pr.2.location with
        | some l1, some l2 => decide (l1 = l2)
        | _, _ => false := by
  unfold location_uniqueness_violations
  congr 1
  funext pr
  exact location_uniqueness_filter_eq pr

/-- The weight total of `build_house_school_distance_constraint` in the
form app.py's loop computes it. -/
theorem house_school_distance_sum_eq (l : List BuildingPlacement) :
    house_school_distance_sum l =
      ((uniquePairs l).map fun pr =>
        match pr.1.location, pr.2.location with
        | some _, some _ =>
            if (pr.1.building_type = BuildingType.HOUSE ∧
                  pr.2.building_type = BuildingType.SCHOOL) ∨
                (pr.1.building_type = BuildingType.SCHOOL ∧
                  pr.2.building_type = BuildingType.HOUSE) then
              calc_distance pr.1 pr.2
            else 0
        | _, _ => 0).sum := by
  unfold house_school_distance_sum
  rw [sum_map_filter_eq_sum_ite]
  exact congrArg List.sum (List.map_congr_left fun pr _ => house_school_term_eq pr)

/-- The weight total of `build_house_office_distance_constraint` in the
form app.py's loop computes it. -/
theorem house_office_distance_sum_eq (l : List BuildingPlacement) :
    house_office_distance_sum l =
      ((uniquePairs l).map fun pr =>
        match pr.1.location, pr.2.location with
        | some _, some _ =>
            if (pr.1.building_type = BuildingType.HOUSE ∧
                  pr.2.building_type = BuildingType.OFFICE) ∨
                (pr.1.building_type = BuildingType.OFFICE ∧
                  pr.2.building_type = BuildingType.HOUSE) then
              calc_distance pr.1 pr.2
            else 0
        | _, _ => 0).sum := by
  unfold house_office_distance_sum
  rw [sum_map_filter_eq_sum_ite]
  exact congrArg List.sum (List.map_congr_left fun pr _ => house_office_term_eq pr)

/-- The weight total of `build_cost_constraint` in the form app.py's loop
computes it. -/
theorem building_cost_sum_eq (l : List BuildingPlacement) :
    building_cost_sum l =
      (l.map fun bp =>
        match bp.location with
        | some loc => (loc.cost_factor : ℝ)
        | none => 0).sum := by
  unfold building_cost_sum
  rw [sum_map_filter_eq_sum_ite]
  refine congrArg List.sum (List.map_congr_left fun bp _ => ?_)
  rcases h : bp.location with _ | loc <;> simp [cost_filter, cost_weight, h]

/-- Shared unfolding: app.py's breakdown written with the constraint
functions of constraints.py. -/
theorem breakdown_eq_constraint_components (sol : CityPlanSolution) :
    get_score_breakdown sol =
      [ { constraintName := "Building in disallowed location (HARD)",
          hardPenalty := -(disallowed_location_violations sol.building_placement_list : Int),
          softPenalty := 0 },
        { constraintName := "Zoning mismatch (HARD)",
          hardPenalty := -(zoning_mismatch_violations sol.building_placement_list : Int),
          softPenalty := 0 },
        { constraintName := "Location uniqueness (HARD)",
          hardPenalty := -(location_uniqueness_violations sol.building_placement_list : Int),
          softPenalty := 0 },
        { constraintName := "Distance between HOUSE and SCHOOL (SOFT)",
          hardPenalty := 0,
          softPenalty := -(house_school_distance_sum sol.building_placement_list) },
        { constraintName := "Distance between HOUSE and OFFICE (SOFT)",
          hardPenalty := 0,
          softPenalty := -(house_office_distance_sum sol.building_placement_list) },
        { constraintName := "Building cost minimization (SOFT)",
          hardPenalty := 0,
          softPenalty := -(building_cost_sum sol.building_placement_list) } ] := by
  rw [location_uniqueness_violations_eq, house_school_distance_sum_eq,
    house_office_distance_sum_eq, building_cost_sum_eq]
  rfl

/-- C2: for every solution, the six-entry breakdown of app.py's
`get_score_breakdown` agrees entry by entry with the counts and sums of the
constraint functions of constraints.py, each negated, with the same names
and with unassigned placements contributing nothing in both layers. -/
theorem get_score_breakdown_matches_constraints (sol : CityPlanSolution) :
    get_score_breakdown sol =
      [ { constraintName := "Building in disallowed location (HARD)",
          hardPenalty := -(disallowed_location_violations sol.building_placement_list : Int),
          softPenalty := 0 },
        { constraintName := "Zoning mismatch (HARD)",
          hardPenalty := -(zoning_mismatch_violations sol.building_placement_list : Int),
          softPenalty := 0 },
        { constraintName := "Location uniqueness (HARD)",
          hardPenalty := -(location_uniqueness_violations sol.building_placement_list : Int),
          softPenalty := 0 },
        { constraintName := "Distance between HOUSE and SCHOOL (SOFT)",
          hardPenalty := 0,
          softPenalty := -(house_school_distance_sum sol.building_placement_list) },
        { constraintName := "Distance between HOUSE and OFFICE (SOFT)",
          hardPenalty := 0,
          softPenalty := -(house_office_distance_sum sol.building_placement_list) },
        { constraintName := "Building cost minimization (SOFT)",
          hardPenalty := 0,
          softPenalty := -(building_cost_sum sol.building_placement_list) } ] :=
  breakdown_eq_constraint_components sol

/-- The spec's description of the uniqueness count: the number of unordered
pairs of placements that are both assigned and share the same location.
The body coincides with the test inside app.py's uniqueness loop. -/
def both_assigned_same_location_pairs (l : List BuildingPlacement) : Nat :=
  (uniquePairs l).countP fun pr =>
    match pr.1.location, pr.2.location with
    | some l1, some l2 => decide (l1 = l2)
    | _, _ => false

/-- The placement is assigned exactly the location `loc`. -/
def assigned_at (loc : Location) (bp : BuildingPlacement) : Bool :=
  decide (bp.location = some loc)

/-- Counting the unordered pairs whose two members both satisfy `P` gives
`choose 2` of the number of members satisfying `P`. -/
theorem countP_uniquePairs_both {α : Type} (P : α → Bool) (l : List α) :
    (uniquePairs l).countP (fun pr => P pr.1 && P pr.2) = (l.countP P).choose 2 := by
  induction l with
  | nil => simp [uniquePairs]
  | cons x xs ih =>
    simp only [uniquePairs, List.countP_append, List.countP_map, List.countP_cons]
    cases hx : P x
    · have hz : xs.countP ((fun pr : α × α => P pr.1 && P pr.2) ∘ fun y => (x, y)) = 0 := by
        apply List.countP_eq_zero.mpr
        intro a _
        simp [Function.comp, hx]
      simp [hz, hx, ih]
    · have he : xs.countP ((fun pr : α × α => P pr.1 && P pr.2) ∘ fun y => (x, y)) =
          xs.countP P := by
        apply List.countP_congr
        intro a _
        simp [Function.comp, hx]
      rw [he, ih]
      simp only [hx, if_true, ite_true]
      rw [Nat.choose_succ_succ (xs.countP P) 1, Nat.choose_one_right]

/-- C3: the third breakdown entry is the location-uniqueness entry and its
hardPenalty is minus the number of unordered pairs of placements that are
both assigned and share the same location; a location holding k assigned
placements contributes k*(k-1)/2 such pairs, and the count is zero exactly
when the assigned placements occupy pairwise distinct locations. -/
theorem location_uniqueness_entry_counts_pairs (sol : CityPlanSolution) (loc : Location) :
    ((get_score_breakdown sol)[2]?.map fun e => (e.constraintName, e.hardPenalty)) =
      some ("Location uniqueness (HARD)",
        -(both_assigned_same_location_pairs sol.building_placement_list : Int)) ∧
    (uniquePairs sol.building_placement_list).countP
        (fun pr => assigned_at loc pr.1 && assigned_at loc pr.2) =
      sol.building_placement_list.countP (assigned_at loc) *
        (sol.building_placement_list.countP (assigned_at loc) - 1) / 2 ∧
    (both_assigned_same_location_pairs sol.building_placement_list = 0 ↔
      ∀ pr ∈ uniquePairs sol.building_placement_list, ∀ a b,
        pr.1.location = some a → pr.2.location = some b → a ≠ b) := by
  refine ⟨?_, ?_, ?_⟩
  · rw [breakdown_eq_constraint_components, location_uniqueness_violations_eq]
    rfl
  · rw [countP_uniquePairs_both, Nat.choose_two_right]
  · rw [both_assigned_same_location_pairs, List.countP_eq_zero]
    constructor
    · intro h pr hpr a b ha hb heq
      apply h pr hpr
      simp [ha, hb, heq]
    · intro h pr hpr hpred
      rcases h1 : pr.1.location with _ | a
      · simp [h1] at hpred
      · rcases h2 : pr.2.location with _ | b
        · simp [h1, h2] at hpred
        · simp only [h1, h2, decide_eq_true_eq] at hpred
          exact h pr hpr a b h1 h2 hpred

/-- Filtering by a weaker predicate does not change a count whose predicate
forces the filter. -/
theorem countP_filter_of_imp {α : Type} (p q : α → Bool) (l : List α)
    (h : ∀ a, p a = true → q a = true) :
    (l.filter q).countP p = l.countP p := by
  induction l with
  | nil => rfl
  | cons x xs ih =>
    by_cases hq : q x = true
    · simp [List.filter_cons, hq, List.countP_cons, ih]
    · have hp : p x = false := by
        cases hpx : p x
        · rfl
        · exact absurd (h x hpx) hq
      simp [List.filter_cons, hq, List.countP_cons, ih, hp]

/-- Filtering by a predicate does not change a sum whose summand vanishes
outside the filter. -/
theorem sum_map_filter_of_zero {α M : Type} [AddCommMonoid M]
    (g : α → M) (q : α → Bool) (l : List α)
    (h : ∀ a, q a = false → g a = 0) :
    ((l.filter q).map g).sum = (l.map g).sum := by
  induction l with
  | nil => rfl
  | cons x xs ih =>
    by_cases hq : q x = true
    · simp [List.filter_cons, hq, ih]
    · have hg : g x = 0 := h x (Bool.eq_false_iff.mpr hq)
      simp [List.filter_cons, hq, ih, hg]

/-- Removing list members outside `q` does not change a pair count whose
predicate forces `q` on both members. -/
theorem uniquePairs_countP_filter {α : Type} (p : α × α → Bool) (q : α → Bool) (l : List α)
    (h : ∀ a b, p (a, b) = true → q a = true ∧ q b = true) :
    (uniquePairs (l.filter q)).countP p = (uniquePairs l).countP p := by
  induction l with
  | nil => rfl
  | cons x xs ih =>
    by_cases hq : q x = true
    · rw [List.filter_cons, if_pos hq]
      simp only [uniquePairs, List.countP_append, List.countP_map, ih]
      congr 1
      exact countP_filter_of_imp _ q xs fun a ha => (h x a ha).2
    · rw [List.filter_cons, if_neg hq]
      simp only [uniquePairs, List.countP_append, List.countP_map, ih]
      have hz : xs.countP (p ∘ fun y => (x, y)) = 0 := by
        apply List.countP_eq_zero.mpr
        intro a _ hpa
        exact hq (h x a hpa).1
      omega

/-- Removing list members outside `q` does not change a pair sum whose
summand vanishes unless `q` holds of both members. -/
theorem uniquePairs_sum_filter {α M : Type} [AddCommMonoid M]
    (f : α × α → M) (q : α → Bool) (l : List α)
    (h : ∀ a b, q a = false ∨ q b = false → f (a, b) = 0) :
    ((uniquePairs (l.filter q)).map f).sum = ((uniquePairs l).map f).sum := by
  induction l with
  | nil => rfl
  | cons x xs ih =>
    by_cases hq : q x = true
    · rw [List.filter_cons, if_pos hq]
      simp only [uniquePairs, List.map_append, List.sum_append, List.map_map, ih]
      congr 1
      exact sum_map_filter_of_zero _ q xs fun a ha => h x a (Or.inr ha)
    · rw [List.filter_cons, if_neg hq]
      simp only [uniquePairs, List.map_append, List.sum_append, List.map_map, ih]
      have hz : ((xs.map fun y => (x, y)).map f).sum = 0 := by
        apply List.sum_eq_zero
        intro v hv
        simp only [List.map_map, List.mem_map] at hv
        obtain ⟨a, _, rfl⟩ := hv
        exact h x a (Or.inl (Bool.eq_false_iff.mpr hq))
      rw [List.map_map] at hz
      rw [hz, zero_add]

/-- C4: an unassigned placement contributes to no constraint: the breakdown
of a solution equals the breakdown of the same solution with every
unassigned placement removed. -/
theorem get_score_breakdown_drops_unassigned (sol : CityPlanSolution) :
    get_score_breakdown
        { sol with building_placement_list :=
            sol.building_placement_list.filter fun bp => bp.location.isSome } =
      get_score_breakdown sol := by
  have h1 : disallowed_location_violations
      (sol.building_placement_list.filter fun bp => bp.location.isSome) =
      disallowed_location_violations sol.building_placement_list := by
    rw [disallowed_location_violations, disallowed_location_violations]
    apply countP_filter_of_imp
    intro a ha
    rcases hl : a.location with _ | loc
    · simp [disallowed_location_filter, hl] at ha
    · simp [hl]
  have h2 : zoning_mismatch_violations
      (sol.building_placement_list.filter fun bp => bp.location.isSome) =
      zoning_mismatch_violations sol.building_placement_list := by
    rw [zoning_mismatch_violations, zoning_mismatch_violations]
    apply countP_filter_of_imp
    intro a ha
    rcases hl : a.location with _ | loc
    · simp [zoning_mismatch_filter, hl] at ha
    · simp [hl]
  have h3 : location_uniqueness_violations
      (sol.building_placement_list.filter fun bp => bp.location.isSome) =
      location_uniqueness_violations sol.building_placement_list := by
    rw [location_uniqueness_violations, location_uniqueness_violations]
    apply uniquePairs_countP_filter
    intro a b hab
    simp only [location_uniqueness_filter, Bool.and_eq_true, decide_eq_true_eq] at hab
    obtain ⟨hne, heq⟩ := hab
    constructor
    · exact Option.isSome_iff_ne_none.mpr hne
    · rw [← heq]
      exact Option.isSome_iff_ne_none.mpr hne
  have h4 : house_school_distance_sum
      (sol.building_placement_list.filter fun bp => bp.location.isSome) =
      house_school_distance_sum sol.building_placement_list := by
    rw [house_school_distance_sum, house_school_distance_sum,
      sum_map_filter_eq_sum_ite, sum_map_filter_eq_sum_ite]
    apply uniquePairs_sum_filter
    intro a b hab
    rcases hab with hfa | hfb
    · rcases hl : a.location with _ | loc
      · have hfalse : house_school_filter a b = false := by
          simp [house_school_filter, hl]
        simp [hfalse]
      · rw [hl] at hfa
        simp at hfa
    · rcases hl : b.location with _ | loc
      · have hfalse : house_school_filter a b = false := by
          simp [house_school_filter, hl]
        simp [hfalse]
      · rw [hl] at hfb
        simp at hfb
  have h5 : house_office_distance_sum
      (sol.building_placement_list.filter fun bp => bp.location.isSome) =
      house_office_distance_sum sol.building_placement_list := by
    rw [house_office_distance_sum, house_office_distance_sum,
      sum_map_filter_eq_sum_ite, sum_map_filter_eq_sum_ite]
    apply uniquePairs_sum_filter
    intro a b hab
    rcases hab with hfa | hfb
    · rcases hl : a.location with _ | loc
      · have hfalse : house_office_filter a b = false := by
          simp [house_office_filter, hl]
        simp [hfalse]
      · rw [hl] at hfa
        simp at hfa
    · rcases hl : b.location with _ | loc
      · have hfalse : house_office_filter a b = false := by
          simp [house_office_filter, hl]
        simp [hfalse]
      · rw [hl] at hfb
        simp at hfb
  have h6 : building_cost_sum
      (sol.building_placement_list.filter fun bp => bp.location.isSome) =
      building_cost_sum sol.building_placement_list := by
    have key : ∀ m : List BuildingPlacement,
        building_cost_sum m = (m.map fun bp => if cost_filter bp then cost_weight bp else 0).sum := by
      intro m
      rw [building_cost_sum, sum_map_filter_eq_sum_ite]
    rw [key, key]
    apply sum_map_filter_of_zero
    intro a ha
    rcases hl : a.location with _ | loc
    · simp [cost_filter, hl]
    · rw [hl] at ha
      simp at ha
  rw [breakdown_eq_constraint_components, breakdown_eq_constraint_components]
  dsimp only
  rw [h1, h2, h3, h4, h5, h6]

/-- Transcribed from solve.py `create_initial_solution`: demo location 1. -/
def loc1 : Location :=
  { id := 1, name := "Loc1", x := 0, y := 0, zone := ZoneType.RESIDENTIAL,
    cost_factor := 3,
    allowed_building_types := [BuildingType.HOUSE, BuildingType.SCHOOL, BuildingType.HOSPITAL] }

/-- Transcribed from solve.py `create_initial_solution`: demo location 2. -/
def loc2 : Location :=
  { id := 2, name := "Loc2", x := 10, y := 0, zone := ZoneType.COMMERCIAL,
    cost_factor := 7,
    allowed_building_types := [BuildingType.OFFICE, BuildingType.SHOP, BuildingType.PHARMACY] }

/-- Transcribed from solve.py `create_initial_solution`: demo location 3. -/
def loc3 : Location :=
  { id := 3, name := "Loc3", x := 5, y := 5, zone := ZoneType.MIXED,
    cost_factor := 10,
    allowed_building_types :=
      [BuildingType.HOUSE, BuildingType.OFFICE, BuildingType.SCHOOL, BuildingType.SHOP] }

/-- Transcribed from solve.py `create_initial_solution`: demo location 4,
RESTRICTED and allowing no building type (cheap, but restricted). -/
def loc4 : Location :=
  { id := 4, name := "Loc4", x := 20, y := 5, zone := ZoneType.RESTRICTED,
    cost_factor := 1, allowed_building_types := [] }

/-- Transcribed from solve.py `create_initial_solution`: the four demo
placements and the solution object. -/
def create_initial_solution : CityPlanSolution :=
  { id := "Demo",
    location_list := [loc1, loc2, loc3, loc4],
    building_placement_list :=
      [ { id := 101, building_type := BuildingType.HOUSE },
        { id := 102, building_type := BuildingType.SCHOOL },
        { id := 103, building_type := BuildingType.OFFICE },
        { id := 104, building_type := BuildingType.SHOP } ] }

/-- C5: in the demo fixture, loc4 is RESTRICTED with an empty allowed list,
and however the other three placements are assigned, putting placement 101
(the HOUSE) at loc4 adds exactly one disallowed-location violation and
exactly one zoning-mismatch violation beyond the other placements'
contributions. -/
theorem placement_101_at_loc4_violations (o2 o3 o4 : Option Location) :
    loc4 ∈ create_initial_solution.location_list ∧
    loc4.zone = ZoneType.RESTRICTED ∧
    loc4.allowed_building_types = [] ∧
    (create_initial_solution.building_placement_list.map fun bp =>
      (bp.id, bp.building_type)) =
      [(101, BuildingType.HOUSE), (102, BuildingType.SCHOOL),
        (103, BuildingType.OFFICE), (104, BuildingType.SHOP)] ∧
    disallowed_location_violations
        [ { id := 101, building_type := BuildingType.HOUSE, location := some loc4 },
          { id := 102, building_type := BuildingType.SCHOOL, location := o2 },
          { id := 103, building_type := BuildingType.OFFICE, location := o3 },
          { id := 104, building_type := BuildingType.SHOP, location := o4 } ] =
      disallowed_location_violations
        [ { id := 102, building_type := BuildingType.SCHOOL, location := o2 },
          { id := 103, building_type := BuildingType.OFFICE, location := o3 },
          { id := 104, building_type := BuildingType.SHOP, location := o4 } ] + 1 ∧
    zoning_mismatch_violations
        [ { id := 101, building_type := BuildingType.HOUSE, location := some loc4 },
          { id := 102, building_type := BuildingType.SCHOOL, location := o2 },
          { id := 103, building_type := BuildingType.OFFICE, location := o3 },
          { id := 104, building_type := BuildingType.SHOP, location := o4 } ] =
      zoning_mismatch_violations
        [ { id := 102, building_type := BuildingType.SCHOOL, location := o2 },
          { id := 103, building_type := BuildingType.OFFICE, location := o3 },
          { id := 104, building_type := BuildingType.SHOP, location := o4 } ] + 1 := by
  refine ⟨by decide, by decide, by decide, by decide, ?_, ?_⟩
  · rw [disallowed_location_violations, disallowed_location_violations]
    simp only [List.countP_cons]
    have hhead : disallowed_location_filter
        { id := 101, building_type := BuildingType.HOUSE, location := some loc4 } = true := by
      decide
    simp [hhead]
  · rw [zoning_mismatch_violations, zoning_mismatch_violations]
    simp only [List.countP_cons]
    have hhead : zoning_mismatch_filter
        { id := 101, building_type := BuildingType.HOUSE, location := some loc4 } = true := by
      decide
    simp [hhead]

/-- A pair distance is a square root (or the guard value 0), hence
non-negative. -/
theorem calc_distance_nonneg (bp1 bp2 : BuildingPlacement) : 0 ≤ calc_distance bp1 bp2 := by
  unfold calc_distance
  rcases bp1.location with _ | l1
  · exact le_refl 0
  · rcases bp2.location with _ | l2
    · exact le_refl 0
    · exact Real.sqrt_nonneg _

/-- The HOUSE/SCHOOL distance total is non-negative. -/
theorem house_school_distance_sum_nonneg (l : List BuildingPlacement) :
    0 ≤ house_school_distance_sum l := by
  unfold house_school_distance_sum
  apply List.sum_nonneg
  intro x hx
  simp only [List.mem_map] at hx
  obtain ⟨pr, _, rfl⟩ := hx
  exact calc_distance_nonneg pr.1 pr.2

/-- The HOUSE/OFFICE distance total is non-negative. -/
theorem house_office_distance_sum_nonneg (l : List BuildingPlacement) :
    0 ≤ house_office_distance_sum l := by
  unfold house_office_distance_sum
  apply List.sum_nonneg
  intro x hx
  simp only [List.mem_map] at hx
  obtain ⟨pr, _, rfl⟩ := hx
  exact calc_distance_nonneg pr.1 pr.2

/-- C9: the breakdown always carries the six constraint names in this fixed
order; the three HARD entries have softPenalty 0 and the three SOFT entries
hardPenalty 0; and when every assigned location's cost_factor is
non-negative, every penalty in the breakdown is at most 0. -/
theorem get_score_breakdown_shape_and_signs (sol : CityPlanSolution)
    (h : ∀ bp ∈ sol.building_placement_list, ∀ l, bp.location = some l →
      0 ≤ l.cost_factor) :
    ((get_score_breakdown sol).map fun e => e.constraintName) =
      ["Building in disallowed location (HARD)", "Zoning mismatch (HARD)",
        "Location uniqueness (HARD)", "Distance between HOUSE and SCHOOL (SOFT)",
        "Distance between HOUSE and OFFICE (SOFT)", "Building cost minimization (SOFT)"] ∧
    ((get_score_breakdown sol)[0]?.map fun e => e.softPenalty) = some 0 ∧
    ((get_score_breakdown sol)[1]?.map fun e => e.softPenalty) = some 0 ∧
    ((get_score_breakdown sol)[2]?.map fun e => e.softPenalty) = some 0 ∧
    ((get_score_breakdown sol)[3]?.map fun e => e.hardPenalty) = some 0 ∧
    ((get_score_breakdown sol)[4]?.map fun e => e.hardPenalty) = some 0 ∧
    ((get_score_breakdown sol)[5]?.map fun e => e.hardPenalty) = some 0 ∧
    ∀ e ∈ get_score_breakdown sol, e.hardPenalty ≤ 0 ∧ e.softPenalty ≤ 0 := by
  have hhs := house_school_distance_sum_nonneg sol.building_placement_list
  have hho := house_office_distance_sum_nonneg sol.building_placement_list
  have hcost : (0 : ℝ) ≤ building_cost_sum sol.building_placement_list := by
    unfold building_cost_sum
    apply List.sum_nonneg
    intro x hx
    simp only [List.mem_map] at hx
    obtain ⟨bp, hbp, rfl⟩ := hx
    have hbp2 : bp ∈ sol.building_placement_list := List.mem_of_mem_filter hbp
    rcases hl : bp.location with _ | loc
    · simp [cost_weight, hl]
    · simp only [cost_weight, hl]
      exact_mod_cast h bp hbp2 loc hl
  rw [breakdown_eq_constraint_components]
  refine ⟨rfl, rfl, rfl, rfl, rfl, rfl, rfl, ?_⟩
  intro e he
  simp only [List.mem_cons, List.not_mem_nil, or_false] at he
  rcases he with rfl | rfl | rfl | rfl | rfl | rfl
  · exact ⟨neg_nonpos.mpr (Int.natCast_nonneg _), le_refl 0⟩
  · exact ⟨neg_nonpos.mpr (Int.natCast_nonneg _), le_refl 0⟩
  · exact ⟨neg_nonpos.mpr (Int.natCast_nonneg _), le_refl 0⟩
  · exact ⟨le_refl 0, neg_nonpos.mpr hhs⟩
  · exact ⟨le_refl 0, neg_nonpos.mpr hho⟩
  · exact ⟨le_refl 0, neg_nonpos.mpr hcost⟩

/-- Witness: the shape/sign theorem applied to a concrete empty solution,
whose cost-factor hypothesis holds vacuously. -/
theorem get_score_breakdown_shape_and_signs_witness :
    (∀ bp ∈ ({ id := "w", location_list := [], building_placement_list := [] } :
        CityPlanSolution).building_placement_list,
      ∀ l, bp.location = some l → 0 ≤ l.cost_factor) ∧
    ((get_score_breakdown
        { id := "w", location_list := [], building_placement_list := [] }).map
      fun e => e.constraintName) =
      ["Building in disallowed location (HARD)", "Zoning mismatch (HARD)",
        "Location uniqueness (HARD)", "Distance between HOUSE and SCHOOL (SOFT)",
        "Distance between HOUSE and OFFICE (SOFT)", "Building cost minimization (SOFT)"] :=
  ⟨fun bp hbp => absurd hbp (List.not_mem_nil bp),
    (get_score_breakdown_shape_and_signs
      { id := "w", location_list := [], building_placement_list := [] }
      (fun bp hbp => absurd hbp (List.not_mem_nil bp))).1⟩

/-- Errors the loading layer can raise: a missing required key (Python
KeyError) or an unknown enum value (Python ValueError from the Enum
constructor). -/
inductive ParseError where
  | missingField (key : String)
  | invalidEnumValue (value : String)
deriving DecidableEq, Repr

/-- Reading a required key from a JSON record: `record["key"]` raises
KeyError when the key is absent. -/
def getRequired {α : Type} : Option α → String → Except ParseError α
  | some v, _ => Except.ok v
  | none, key => Except.error (ParseError.missingField key)

/-- Transcribed from domain.py's enum values: `ZoneType(s)`, raising on an
unknown value. -/
def zone_type_of_string (s : String) : Except ParseError ZoneType :=
  if s = "RESIDENTIAL" then Except.ok ZoneType.RESIDENTIAL
  else if s = "COMMERCIAL" then Except.ok ZoneType.COMMERCIAL
  else if s = "MIXED" then Except.ok ZoneType.MIXED
  else if s = "INDUSTRIAL" then Except.ok ZoneType.INDUSTRIAL
  else if s = "RESTRICTED" then Except.ok ZoneType.RESTRICTED
  else Except.error (ParseError.invalidEnumValue s)

/-- Transcribed from domain.py's enum values: `BuildingType(s)`, raising on
an unknown value. -/
def building_type_of_string (s : String) : Except ParseError BuildingType :=
  if s = "HOUSE" then Except.ok BuildingType.HOUSE
  else if s = "SCHOOL" then Except.ok BuildingType.SCHOOL
  else if s = "PHARMACY" then Except.ok BuildingType.PHARMACY
  else if s = "HOSPITAL" then Except.ok BuildingType.HOSPITAL
  else if s = "SHOP" then Except.ok BuildingType.SHOP
  else if s = "OFFICE" then Except.ok BuildingType.OFFICE
  else Except.error (ParseError.invalidEnumValue s)

/-- The list comprehension `[BuildingType(bt) for bt in ...]`. -/
def building_types_of_strings : List String → Except ParseError (List BuildingType)
  | [] => Except.ok []
  | s :: rest =>
    match building_type_of_string s with
    | Except.error e => Except.error e
    | Except.ok bt =>
      match building_types_of_strings rest with
      | Except.error e => Except.error e
      | Except.ok bts => Except.ok (bt :: bts)

/-- One raw location record of the input JSON: each key may be present or
absent; numbers are already-decoded rationals and enum values raw
strings. -/
structure RawLocation where
  id : Option Int
  name : Option String
  x : Option ℚ
  y : Option ℚ
  zone : Option String
  cost_factor : Option ℚ
  allowed_building_types : Option (List String)
deriving DecidableEq, Repr

/-- One raw building record of the input JSON.  The loader reads only `id`
and `building_type`; the `location` key models any pre-assignment data the
input may carry, which the code never reads. -/
structure RawBuilding where
  id : Option Int
  building_type : Option String
  location : Option Int := none
deriving DecidableEq, Repr

/-- The raw input body: `data.get("id", default)`, `data.get("locations",
[])`, `data.get("buildings", [])`. -/
structure RawData where
  id : Option String
  locations : Option (List RawLocation)
  buildings : Option (List RawBuilding)
deriving DecidableEq, Repr

/-- Transcribed from the location loop of app.py `build_solution_from_data`
(and, identically, of benchmark.py `load_solution_from_json`): required
keys `id`, `name`, `x`, `y`, `zone` are read with `loc[...]` (KeyError when
absent, in argument order), while `cost_factor` defaults to 1.0 and
`allowed_building_types` to the empty list via `.get`. -/
def parseLocation (loc : RawLocation) : Except ParseError Location :=
  match getRequired loc.id "id" with
  | Except.error e => Except.error e
  | Except.ok i =>
    match getRequired loc.name "name" with
    | Except.error e => Except.error e
    | Except.ok nm =>
      match getRequired loc.x "x" with
      | Except.error e => Except.error e
      | Except.ok xv =>
        match getRequired loc.y "y" with
        | Except.error e => Except.error e
        | Except.ok yv =>
          match getRequired loc.zone "zone" with
          | Except.error e => Except.error e
          | Except.ok zs =>
            match zone_type_of_string zs with
            | Except.error e => Except.error e
            | Except.ok z =>
              match building_types_of_strings (loc.allowed_building_types.getD []) with
              | Except.error e => Except.error e
              | Except.ok abts =>
                Except.ok
                  { id := i, name := nm, x := xv, y := yv, zone := z,
                    cost_factor := loc.cost_factor.getD 1,
                    allowed_building_types := abts }

/-- The `for loc in locs_raw` append loop of both loaders, with Python's
exception propagation made explicit. -/
def parseLocations : List RawLocation → Except ParseError (List Location)
  | [] => Except.ok []
  | r :: rest =>
    match parseLocation r with
    | Except.error e => Except.error e
    | Except.ok l =>
      match parseLocations rest with
      | Except.error e => Except.error e
      | Except.ok ls => Except.ok (l :: ls)

/-- Transcribed from the building loop of app.py `build_solution_from_data`
(and, identically, of benchmark.py `load_solution_from_json`): required
keys `id` and `building_type` are read with `b[...]`, and the placement is
constructed with `location=None` unconditionally. -/
def parseBuilding (b : RawBuilding) : Except ParseError BuildingPlacement :=
  match getRequired b.id "id" with
  | Except.error e => Except.error e
  | Except.ok i =>
    match getRequired b.building_type "building_type" with
    | Except.error e => Except.error e
    | Except.ok bts =>
      match building_type_of_string bts with
      | Except.error e => Except.error e
      | Except.ok bt => Except.ok { id := i, building_type := bt, location := none }

/-- The `for b in bld_raw` append loop of both loaders, with Python's
exception propagation made explicit. -/
def parseBuildings : List RawBuilding → Except ParseError (List BuildingPlacement)
  | [] => Except.ok []
  | r :: rest =>
    match parseBuilding r with
    | Except.error e => Except.error e
    | Except.ok bp =>
      match parseBuildings rest with
      | Except.error e => Except.error e
      | Except.ok bps => Except.ok (bp :: bps)

/-- Transcribed from app.py `build_solution_from_data`: id defaults to
"NoNamePlan", locations and buildings to empty lists; the score field keeps
the dataclass default None. -/
def build_solution_from_data (data : RawData) : Except ParseError CityPlanSolution :=
  match parseLocations (data.locations.getD []) with
  | Except.error e => Except.error e
  | Except.ok locs =>
    match parseBuildings (data.buildings.getD []) with
    | Except.error e => Except.error e
    | Except.ok blds =>
      Except.ok
        { id := data.id.getD "NoNamePlan", location_list := locs,
          building_placement_list := blds }

/-- Transcribed from benchmark.py `load_solution_from_json` after the file
read: the same loops as app.py's loader, with id defaulting to "PlanX". -/
def load_solution_from_json (data : RawData) : Except ParseError CityPlanSolution :=
  match parseLocations (data.locations.getD []) with
  | Except.error e => Except.error e
  | Except.ok locs =>
    match parseBuildings (data.buildings.getD []) with
    | Except.error e => Except.error e
    | Except.ok blds =>
      Except.ok
        { id := data.id.getD "PlanX", location_list := locs,
          building_placement_list := blds }

/-- Anatomy of a successful location parse: every required key was
present, cost_factor came from `.get("cost_factor", 1.0)` and the allowed
building types from `.get("allowed_building_types", [])`. -/
theorem parseLocation_ok_spec (r : RawLocation) (loc : Location)
    (hok : parseLocation r = Except.ok loc) :
    r.id ≠ none ∧ r.name ≠ none ∧ r.x ≠ none ∧ r.y ≠ none ∧ r.zone ≠ none ∧
    loc.cost_factor = r.cost_factor.getD 1 ∧
    building_types_of_strings (r.allowed_building_types.getD []) =
      Except.ok loc.allowed_building_types := by
  unfold parseLocation at hok
  rcases hid : r.id with _ | i
  · simp [getRequired, hid] at hok
  rcases hnm : r.name with _ | nm
  · simp [getRequired, hid, hnm] at hok
  rcases hx : r.x with _ | xv
  · simp [getRequired, hid, hnm, hx] at hok
  rcases hy : r.y with _ | yv
  · simp [getRequired, hid, hnm, hx, hy] at hok
  rcases hz0 : r.zone with _ | zs
  · simp [getRequired, hid, hnm, hx, hy, hz0] at hok
  rcases hz : zone_type_of_string zs with e | z
  · simp [getRequired, hid, hnm, hx, hy, hz0, hz] at hok
  rcases habts : building_types_of_strings (r.allowed_building_types.getD []) with e | abts
  · simp [getRequired, hid, hnm, hx, hy, hz0, hz, habts] at hok
  simp only [getRequired, hid, hnm, hx, hy, hz0, hz, habts, Except.ok.injEq] at hok
  subst hok
  refine ⟨by simp [hid], by simp [hnm], by simp [hx], by simp [hy], by simp [hz0], rfl, ?_⟩
  rfl

/-- Anatomy of a successful building parse: both required keys were
present and the placement is built unassigned. -/
theorem parseBuilding_ok_spec (b : RawBuilding) (bp : BuildingPlacement)
    (hok : parseBuilding b = Except.ok bp) :
    b.id ≠ none ∧ b.building_type ≠ none ∧ bp.location = none := by
  unfold parseBuilding at hok
  rcases hid : b.id with _ | i
  · simp [getRequired, hid] at hok
  rcases hbt : b.building_type with _ | bts
  · simp [getRequired, hid, hbt] at hok
  rcases hc : building_type_of_string bts with e | bt
  · simp [getRequired, hid, hbt, hc] at hok
  simp only [getRequired, hid, hbt, hc, Except.ok.injEq] at hok
  subst hok
  exact ⟨by simp [hid], by simp [hbt], rfl⟩

/-- The location loop fails whenever one of its records fails. -/
theorem parseLocations_error_of_mem (l : List RawLocation) (r : RawLocation)
    (hr : r ∈ l) (he : ∃ e, parseLocation r = Except.error e) :
    ∃ e2, parseLocations l = Except.error e2 := by
  induction l with
  | nil => cases hr
  | cons a rest ih =>
    rcases List.mem_cons.mp hr with rfl | hmem
    · obtain ⟨e, hee⟩ := he
      cases ha : parseLocation r with
      | error e3 => exact ⟨e3, by simp only [parseLocations, ha]⟩
      | ok v => rw [ha] at hee; cases hee
    · cases ha : parseLocation a with
      | error e3 => exact ⟨e3, by simp only [parseLocations, ha]⟩
      | ok v =>
        obtain ⟨e2, hee⟩ := ih hmem
        exact ⟨e2, by simp only [parseLocations, ha, hee]⟩

/-- The building loop fails whenever one of its records fails. -/
theorem parseBuildings_error_of_mem (l : List RawBuilding) (b : RawBuilding)
    (hb : b ∈ l) (he : ∃ e, parseBuilding b = Except.error e) :
    ∃ e2, parseBuildings l = Except.error e2 := by
  induction l with
  | nil => cases hb
  | cons a rest ih =>
    rcases List.mem_cons.mp hb with rfl | hmem
    · obtain ⟨e, hee⟩ := he
      cases ha : parseBuilding b with
      | error e3 => exact ⟨e3, by simp only [parseBuildings, ha]⟩
      | ok v => rw [ha] at hee; cases hee
    · cases ha : parseBuilding a with
      | error e3 => exact ⟨e3, by simp only [parseBuildings, ha]⟩
      | ok v =>
        obtain ⟨e2, hee⟩ := ih hmem
        exact ⟨e2, by simp only [parseBuildings, ha, hee]⟩

/-- Every placement produced by the building loop is unassigned. -/
theorem parseBuildings_ok_all_unassigned (l : List RawBuilding)
    (bps : List BuildingPlacement) (hok : parseBuildings l = Except.ok bps) :
    ∀ bp ∈ bps, bp.location = none := by
  induction l generalizing bps with
  | nil =>
    simp only [parseBuildings, Except.ok.injEq] at hok
    subst hok
    intro bp hbp
    cases hbp
  | cons a rest ih =>
    cases ha : parseBuilding a with
    | error e => simp [parseBuildings, ha] at hok
    | ok v =>
      cases hrest : parseBuildings rest with
      | error e => simp [parseBuildings, ha, hrest] at hok
      | ok vs =>
        simp only [parseBuildings, ha, hrest, Except.ok.injEq] at hok
        subst hok
        intro bp hbp
        rcases List.mem_cons.mp hbp with rfl | hmem
        · exact (parseBuilding_ok_spec a bp ha).2.2
        · exact ih vs hrest bp hmem

/-- C7: cost_factor (default 1.0) and allowed_building_types (default
empty) are the only defaulted location fields; every other required
location or building key raises an error when absent rather than being
defaulted, and such a record makes `build_solution_from_data` fail. -/
theorem build_solution_defaults_and_required_fields :
    (∀ (r : RawLocation) (loc : Location), parseLocation r = Except.ok loc →
      (r.cost_factor = none → loc.cost_factor = 1) ∧
      (r.allowed_building_types = none → loc.allowed_building_types = [])) ∧
    (∀ r : RawLocation,
      (r.id = none ∨ r.name = none ∨ r.x = none ∨ r.y = none ∨ r.zone = none) →
      ∃ e, parseLocation r = Except.error e) ∧
    (∀ b : RawBuilding, (b.id = none ∨ b.building_type = none) →
      ∃ e, parseBuilding b = Except.error e) ∧
    (∀ (data : RawData) (r : RawLocation), r ∈ data.locations.getD [] →
      (r.id = none ∨ r.name = none ∨ r.x = none ∨ r.y = none ∨ r.zone = none) →
      ∃ e, build_solution_from_data data = Except.error e) ∧
    (∀ (data : RawData) (b : RawBuilding), b ∈ data.buildings.getD [] →
      (b.id = none ∨ b.building_type = none) →
      ∃ e, build_solution_from_data data = Except.error e) := by
  have hloc : ∀ r : RawLocation,
      (r.id = none ∨ r.name = none ∨ r.x = none ∨ r.y = none ∨ r.zone = none) →
      ∃ e, parseLocation r = Except.error e := by
    intro r hr
    cases he : parseLocation r with
    | error e => exact ⟨e, rfl⟩
    | ok loc =>
      obtain ⟨h1, h2, h3, h4, h5, -, -⟩ := parseLocation_ok_spec r loc he
      rcases hr with h | h | h | h | h
      · exact absurd h h1
      · exact absurd h h2
      · exact absurd h h3
      · exact absurd h h4
      · exact absurd h h5
  have hbld : ∀ b : RawBuilding, (b.id = none ∨ b.building_type = none) →
      ∃ e, parseBuilding b = Except.error e := by
    intro b hb
    cases he : parseBuilding b with
    | error e => exact ⟨e, rfl⟩
    | ok bp =>
      obtain ⟨h1, h2, -⟩ := parseBuilding_ok_spec b bp he
      rcases hb with h | h
      · exact absurd h h1
      · exact absurd h h2
  refine ⟨?_, hloc, hbld, ?_, ?_⟩
  · intro r loc hok
    obtain ⟨-, -, -, -, -, hcf, habts⟩ := parseLocation_ok_spec r loc hok
    constructor
    · intro h
      rw [hcf, h]
      rfl
    · intro h
      rw [h] at habts
      simp [building_types_of_strings] at habts
      exact habts
  · intro data r hr hmiss
    obtain ⟨e, he⟩ :=
      parseLocations_error_of_mem (data.locations.getD []) r hr (hloc r hmiss)
    exact ⟨e, by simp only [build_solution_from_data, he]⟩
  · intro data b hb hmiss
    cases hl : parseLocations (data.locations.getD []) with
    | error e => exact ⟨e, by simp only [build_solution_from_data, hl]⟩
    | ok locs =>
      obtain ⟨e, he⟩ :=
        parseBuildings_error_of_mem (data.buildings.getD []) b hb (hbld b hmiss)
      exact ⟨e, by simp only [build_solution_from_data, hl, he]⟩

/-- Witness: a location record missing only the two optional keys parses
with cost_factor 1 and no allowed building types; records missing `name`
or `id` fail to parse. -/
theorem build_solution_defaults_witness :
    (({ id := 1, name := "L", x := 0, y := 0, zone := ZoneType.RESIDENTIAL,
          cost_factor := 1, allowed_building_types := [] } : Location).cost_factor = 1 ∧
      ({ id := 1, name := "L", x := 0, y := 0, zone := ZoneType.RESIDENTIAL,
          cost_factor := 1, allowed_building_types := [] } : Location).allowed_building_types =
        []) ∧
    (∃ e, parseLocation
        { id := some 1, name := none, x := some 0, y := some 0,
          zone := some "RESIDENTIAL", cost_factor := some 2,
          allowed_building_types := some [] } = Except.error e) ∧
    (∃ e, parseBuilding { id := none, building_type := some "HOUSE" } =
      Except.error e) := by
  refine ⟨?_, ?_, ?_⟩
  · have h := build_solution_defaults_and_required_fields.1
      { id := some 1, name := some "L", x := some 0, y := some 0,
        zone := some "RESIDENTIAL", cost_factor := none, allowed_building_types := none }
      { id := 1, name := "L", x := 0, y := 0, zone := ZoneType.RESIDENTIAL,
        cost_factor := 1, allowed_building_types := [] }
      rfl
    exact ⟨h.1 rfl, h.2 rfl⟩
  · exact build_solution_defaults_and_required_fields.2.1
      { id := some 1, name := none, x := some 0, y := some 0,
        zone := some "RESIDENTIAL", cost_factor := some 2,
        allowed_building_types := some [] }
      (Or.inr (Or.inl rfl))
  · exact build_solution_defaults_and_required_fields.2.2.1
      { id := none, building_type := some "HOUSE" } (Or.inl rfl)

/-- The concrete raw input used by the loader witness: its building record
even carries a location key. -/
def witness_raw_data : RawData :=
  { id := some "p",
    locations := some
      [{ id := some 1, name := some "L", x := some 0, y := some 0,
         zone := some "RESIDENTIAL", cost_factor := some 2,
         allowed_building_types := some ["HOUSE"] }],
    buildings := some
      [{ id := some 7, building_type := some "HOUSE", location := some 3 }] }

/-- The solution the loader witness expects. -/
def witness_loaded_solution : CityPlanSolution :=
  { id := "p",
    location_list :=
      [{ id := 1, name := "L", x := 0, y := 0, zone := ZoneType.RESIDENTIAL,
         cost_factor := 2, allowed_building_types := [BuildingType.HOUSE] }],
    building_placement_list :=
      [{ id := 7, building_type := BuildingType.HOUSE, location := none }] }

/-- C10: both loaders always produce a fully unassigned, unscored
solution: whatever the input carries, every created placement has
location None and the solution score is unset. -/
theorem loaders_start_unassigned :
    (∀ (data : RawData) (sol : CityPlanSolution),
      build_solution_from_data data = Except.ok sol →
      (∀ bp ∈ sol.building_placement_list, bp.location = none) ∧ sol.score = none) ∧
    (∀ (data : RawData) (sol : CityPlanSolution),
      load_solution_from_json data = Except.ok sol →
      (∀ bp ∈ sol.building_placement_list, bp.location = none) ∧ sol.score = none) := by
  constructor
  · intro data sol hok
    unfold build_solution_from_data at hok
    cases hl : parseLocations (data.locations.getD []) with
    | error e => simp [hl] at hok
    | ok locs =>
      cases hb : parseBuildings (data.buildings.getD []) with
      | error e => simp [hl, hb] at hok
      | ok blds =>
        simp only [hl, hb, Except.ok.injEq] at hok
        subst hok
        exact ⟨parseBuildings_ok_all_unassigned _ blds hb, rfl⟩
  · intro data sol hok
    unfold load_solution_from_json at hok
    cases hl : parseLocations (data.locations.getD []) with
    | error e => simp [hl] at hok
    | ok locs =>
      cases hb : parseBuildings (data.buildings.getD []) with
      | error e => simp [hl, hb] at hok
      | ok blds =>
        simp only [hl, hb, Except.ok.injEq] at hok
        subst hok
        exact ⟨parseBuildings_ok_all_unassigned _ blds hb, rfl⟩

/-- Witness: the concrete input loads successfully, with its placement
unassigned and its score unset even though the raw building record carried
a location key. -/
theorem loaders_start_unassigned_witness :
    build_solution_from_data witness_raw_data = Except.ok witness_loaded_solution ∧
    (∀ bp ∈ witness_loaded_solution.building_placement_list, bp.location = none) ∧
    witness_loaded_solution.score = none := by
  refine ⟨rfl, ?_, ?_⟩
  · exact (loaders_start_unassigned.1 witness_raw_data witness_loaded_solution rfl).1
  · exact (loaders_start_unassigned.1 witness_raw_data witness_loaded_solution rfl).2

/-- The location sub-dictionary of a placement in the /solve response. -/
structure LocationDict where
  id : Int
  name : String
  x : ℚ
  y : ℚ
  zone : String
  cost_factor : ℚ
deriving DecidableEq, Repr

/-- One placement dictionary of the /solve response. -/
structure PlacementDict where
  id : Int
  building_type : String
  location : Option LocationDict
deriving DecidableEq, Repr

/-- The response dictionary app.py `solution_to_dict` builds. -/
structure SolutionDict where
  solution_id : String
  score : String
  placements : List PlacementDict
  constraintBreakdown : List BreakdownEntry

/-- The `.value` string of a ZoneType enum member (domain.py). -/
def ZoneType.value : ZoneType → String
  | ZoneType.RESIDENTIAL => "RESIDENTIAL"
  | ZoneType.COMMERCIAL => "COMMERCIAL"
  | ZoneType.MIXED => "MIXED"
  | ZoneType.INDUSTRIAL => "INDUSTRIAL"
  | ZoneType.RESTRICTED => "RESTRICTED"

/-- The `.value` string of a BuildingType enum member (domain.py). -/
def BuildingType.value : BuildingType → String
  | BuildingType.HOUSE => "HOUSE"
  | BuildingType.SCHOOL => "SCHOOL"
  | BuildingType.PHARMACY => "PHARMACY"
  | BuildingType.HOSPITAL => "HOSPITAL"
  | BuildingType.SHOP => "SHOP"
  | BuildingType.OFFICE => "OFFICE"

/-- The str() of a timefold HardSoftScore, in its "Nhard/Msoft" shape. -/
def score_str (s : HardSoftScore) : String :=
  toString s.hard ++ "hard/" ++ toString s.soft ++ "soft"

/-- Transcribed from app.py `solution_to_dict`: placement dictionaries
with optional location sub-dictionaries, the score string (`str(score)`
when a score object is set, the literal "None" otherwise: a HardSoftScore
defines no truthiness override, so `if solution.score` tests
non-None-ness), and the breakdown passed through. -/
def solution_to_dict (solution : CityPlanSolution)
    (breakdown : List BreakdownEntry) : SolutionDict :=
  { solution_id := solution.id,
    score :=
      match solution.score with
      | some s => score_str s
      | none => "None",
    placements := solution.building_placement_list.map fun bp =>
      { id := bp.id,
        building_type := bp.building_type.value,
        location :=
          match bp.location with
          | some loc =>
              some { id := loc.id, name := loc.name, x := loc.x, y := loc.y,
                     zone := loc.zone.value, cost_factor := loc.cost_factor }
          | none => none },
    constraintBreakdown := breakdown }

/-- C8: the "score" field of the response is the string representation of
the hard/soft score when the solution carries one, and the literal string
"None" when it does not. -/
theorem solution_to_dict_score_field (sol : CityPlanSolution)
    (breakdown : List BreakdownEntry) :
    (∀ s, sol.score = some s →
      (solution_to_dict sol breakdown).score = score_str s) ∧
    (sol.score = none → (solution_to_dict sol breakdown).score = "None") := by
  constructor
  · intro s hs
    simp [solution_to_dict, hs]
  · intro hs
    simp [solution_to_dict, hs]

/-- Witness: a solved and an unsolved concrete solution give the two score
strings. -/
theorem solution_to_dict_score_field_witness :
    (solution_to_dict
        { id := "a", location_list := [], building_placement_list := [],
          score := some { hard := -2, soft := 5 } } []).score =
      score_str { hard := -2, soft := 5 } ∧
    (solution_to_dict
        { id := "b", location_list := [], building_placement_list := [] } []).score =
      "None" :=
  ⟨(solution_to_dict_score_field
      { id := "a", location_list := [], building_placement_list := [],
        score := some { hard := -2, soft := 5 } } []).1 { hard := -2, soft := 5 } rfl,
    (solution_to_dict_score_field
      { id := "b", location_list := [], building_placement_list := [] } []).2 rfl⟩

/-- Transcribed from timefold's config API as this repository uses it:
`Duration(seconds=...)`. -/
structure Duration where
  seconds : Nat
deriving DecidableEq, Repr

/-- Transcribed from timefold's config API as this repository uses it:
`TerminationConfig(spent_limit=...)`. -/
structure TerminationConfig where
  spent_limit : Duration
deriving DecidableEq, Repr

/-- The fields of timefold's SolverConfig this repository touches.
SolverConfig has no construction_heuristic_type or local_search_type
field; phases would be configured through a phase configuration list,
which no code in this repository sets (modelled here by its default empty
value; the class-level fields solution_class, entity_class_list and
score_director_factory_config carry no information at this level and are
omitted). -/
structure SolverConfig where
  termination_config : TerminationConfig
  phase_config_list : List String := []
deriving DecidableEq, Repr

/-- A SolverFactory as a Python object: `SolverFactory.create(config)`
fixes the underlying factory from the config; later plain attribute
assignments on the Python object land in its instance dictionary, modelled
as an attribute list nothing in the framework reads. -/
structure SolverFactory where
  config : SolverConfig
  extra_attributes : List (String × String) := []
deriving DecidableEq, Repr

/-- `SolverFactory.create(config)`. -/
def SolverFactory.create (c : SolverConfig) : SolverFactory :=
  { config := c }

/-- `factory.key = value` in Python: stored on the object, read by
nothing in the framework. -/
def SolverFactory.setattr (f : SolverFactory) (key value : String) : SolverFactory :=
  { f with extra_attributes := f.extra_attributes ++ [(key, value)] }

/-- The effective configuration of a built solver: the termination limit,
and which construction heuristic / local search were explicitly
configured (`none` = left to framework defaults). -/
structure Solver where
  effective_spent_limit : Duration
  effective_construction_heuristic : Option String
  effective_local_search : Option String
deriving DecidableEq, Repr

/-- Modelled from the library semantics: `build_solver()` reads only the
SolverConfig captured at create() time.  The repository's config carries
no phase configuration, so no construction heuristic or local search type
is explicitly configured, and the extra Python attributes set on the
factory object afterwards are never consulted. -/
def SolverFactory.build_solver (f : SolverFactory) : Solver :=
  { effective_spent_limit := f.config.termination_config.spent_limit,
    effective_construction_heuristic := none,
    effective_local_search := none }

/-- Transcribed from solve.py `solve_city_plan`: the SolverConfig it
builds (termination_config with spent_limit Duration(seconds=5), no phase
configuration), the factory created from it, and the two plain attribute
assignments `solver_factory.construction_heuristic_type = "FIRST_FIT"`
and `solver_factory.local_search_type = "TABU_SEARCH"` made on the
factory object after creation. -/
def solve_city_plan_factory : SolverFactory :=
  ((SolverFactory.create
      { termination_config := { spent_limit := { seconds := 5 } } }).setattr
    "construction_heuristic_type" "FIRST_FIT").setattr
    "local_search_type" "TABU_SEARCH"

/-- The solver `solve_city_plan` builds and runs on every input problem. -/
def solve_city_plan_solver : Solver :=
  solve_city_plan_factory.build_solver

/-- C6 evaluation: the built solver keeps the 5-second termination limit,
but no construction heuristic or local search type is part of its
effective configuration — the two assignments are dead stores on the
factory object's attribute dictionary. -/
theorem solve_city_plan_effective_configuration :
    solve_city_plan_solver.effective_spent_limit = { seconds := 5 } ∧
    solve_city_plan_solver.effective_construction_heuristic = none ∧
    solve_city_plan_solver.effective_local_search = none ∧
    solve_city_plan_factory.extra_attributes =
      [("construction_heuristic_type", "FIRST_FIT"),
        ("local_search_type", "TABU_SEARCH")] ∧
    solve_city_plan_factory.config.phase_config_list = [] :=
  ⟨rfl, rfl, rfl, rfl, rfl⟩
